import Mathlib

/-!
Shallow embedding of a document-search facade. The embedded code is
`app/opensearch_client.py` (`ensure_index`, `seed_documents`,
`search_documents`) and `app/main.py` (`init_index`, `seed`, `search`).
The external OpenSearch engine is modelled as an explicit store state for
schema creation and document admission, and as an execution oracle
`exec : String → QueryBody → SearchResponse` for ranked retrieval, whose
scoring is outside the embedded code.
-/

namespace App

/-- A document payload: `title`, `content`, `content_type`. -/
structure Doc where
  title : String
  content : String
  content_type : String
deriving DecidableEq, Repr

/-- `ALLOWED_CONTENT_TYPES = ["article", "blog", "news", "faq"]` from
`opensearch_client.py`. -/
def ALLOWED_CONTENT_TYPES : List String := ["article", "blog", "news", "faq"]

/-- The index settings and mapping written on creation by `ensure_index`:
settings `number_of_shards = 1`, `number_of_replicas = 0`; field types
`title : text`, `content : text`, `content_type : keyword`. -/
structure IndexMapping where
  number_of_shards : Nat
  number_of_replicas : Nat
  title_field : String
  content_field : String
  content_type_field : String
deriving DecidableEq, Repr

/-- The literal mapping value from `ensure_index`. -/
def fixedMapping : IndexMapping :=
  { number_of_shards := 1
    number_of_replicas := 0
    title_field := "text"
    content_field := "text"
    content_type_field := "keyword" }

/-- State of one index in the store: its mapping and its admitted documents. -/
structure IndexData where
  mapping : IndexMapping
  docs : List Doc
deriving DecidableEq, Repr

/-- State of the backing store: the named indices. -/
structure Store where
  indices : List (String × IndexData)
deriving DecidableEq, Repr

/-- `client.indices.exists(index=index_name)`. -/
def indexExists (s : Store) (index_name : String) : Bool :=
  s.indices.any fun p => p.1 == index_name

/-- `ensure_index(index_name)`: create the index with the fixed mapping when
it does not exist, otherwise do nothing. -/
def ensure_index (index_name : String) (s : Store) : Store :=
  if indexExists s index_name then s
  else { indices := s.indices ++ [(index_name, { mapping := fixedMapping, docs := [] })] }

/-- `client.index(index=index_name, body=doc, refresh=True)`: append the
document to the named index, immediately visible. -/
def writeDoc (index_name : String) (doc : Doc) (s : Store) : Store :=
  { indices := s.indices.map fun p =>
      if p.1 == index_name then (p.1, { p.2 with docs := p.2.docs ++ [doc] }) else p }

/-- Lookup of the document list stored under a key in an index list. -/
def lookupDocs (index_name : String) : List (String × IndexData) → List Doc
  | [] => []
  | p :: rest => if p.1 == index_name then p.2.docs else lookupDocs index_name rest

/-- Observation: the documents stored under a given index name. -/
def docsOf (s : Store) (index_name : String) : List Doc :=
  lookupDocs index_name s.indices

/-- The fixed list of five seed documents from `seed_documents`. -/
def documents : List Doc :=
  [ { title := "Новости компании"
      content := "Наша компания запустила новый продукт для анализа данных."
      content_type := "news" },
    { title := "Как пользоваться приложением"
      content := "В этом руководстве мы расскажем, как начать работу шаг за шагом."
      content_type := "faq" },
    { title := "Статья о поиске"
      content := "Поисковые системы используют индексы для быстрого поиска по тексту."
      content_type := "article" },
    { title := "Блог о продуктивности"
      content := "Несколько советов о том, как повысить продуктивность на работе."
      content_type := "blog" },
    { title := "FAQ: учетная запись"
      content := "Частые вопросы о восстановлении пароля и настройке профиля."
      content_type := "faq" } ]

/-- The ingestion loop of `seed_documents`, over an arbitrary candidate list:
skip a document whose `content_type` is not allowed, otherwise write it and
count it. Returns the final store and the count. -/
def seedLoop (index_name : String) (docs : List Doc) (s : Store) : Store × Nat :=
  match docs with
  | [] => (s, 0)
  | doc :: rest =>
    if ALLOWED_CONTENT_TYPES.contains doc.content_type then
      let s1 := writeDoc index_name doc s
      let r := seedLoop index_name rest s1
      (r.1, r.2 + 1)
    else
      seedLoop index_name rest s

/-- `seed_documents(index_name)`: run the ingestion loop on the fixed list. -/
def seed_documents (index_name : String) (s : Store) : Store × Nat :=
  seedLoop index_name documents s

/-- The error raised when a store write (`client.index`) fails. -/
inductive SeedError where
  | writeFailure
deriving DecidableEq, Repr

/-- The ingestion loop of `seed_documents` when the store write may fail:
`failsOn` tells which documents the write raises on. A raised write aborts
the loop; documents already written stay written. -/
def seedLoopF (failsOn : Doc → Bool) (index_name : String) (docs : List Doc) (s : Store) :
    Store × Except SeedError Nat :=
  match docs with
  | [] => (s, Except.ok 0)
  | doc :: rest =>
    if ALLOWED_CONTENT_TYPES.contains doc.content_type then
      if failsOn doc then
        (s, Except.error SeedError.writeFailure)
      else
        let s1 := writeDoc index_name doc s
        match seedLoopF failsOn index_name rest s1 with
        | (s2, Except.ok n) => (s2, Except.ok (n + 1))
        | (s2, Except.error e) => (s2, Except.error e)
    else
      seedLoopF failsOn index_name rest s

/-- One `multi_match` clause as built by `search_documents`. -/
structure MultiMatch where
  query : String
  fields : List String
  type : String
deriving DecidableEq, Repr

/-- One `term` filter clause as built by `search_documents`. -/
structure TermFilter where
  field : String
  value : String
deriving DecidableEq, Repr

/-- The query body sent to the store by `search_documents`: `bool.must`,
`bool.filter`, the `_source` projection and `size`. -/
structure QueryBody where
  must : List MultiMatch
  filter : List TermFilter
  source_fields : List String
  size : Nat
deriving DecidableEq, Repr

/-- A hit `_source` object; either text field may be absent. -/
structure HitSource where
  title : Option String
  content : Option String
deriving DecidableEq, Repr

/-- One hit in a store response; `_source` may be absent. -/
structure Hit where
  source : Option HitSource
deriving DecidableEq, Repr

/-- The inner `hits` object of a store response; its `hits` list may be
absent. -/
structure HitsBlock where
  hits : Option (List Hit)
deriving DecidableEq, Repr

/-- A store response; the outer `hits` object may be absent, matching
`resp.get("hits", {}).get("hits", [])`. -/
structure SearchResponse where
  hits : Option HitsBlock
deriving DecidableEq, Repr

/-- A projected search result: `{title, snippet}`. -/
structure ResultRecord where
  title : String
  snippet : String
deriving DecidableEq, Repr

/-- `resp.get("hits", {}).get("hits", [])`. -/
def responseHits (resp : SearchResponse) : List Hit :=
  ((resp.hits.getD { hits := none }).hits).getD []

/-- The loop body of `search_documents` over one hit:
`source = hit.get("_source", {})`, `title = source.get("title", "")`,
`content = source.get("content", "")`, `snippet = content[:50]`. -/
def projectHit (hit : Hit) : ResultRecord :=
  let source := hit.source.getD { title := none, content := none }
  let title := source.title.getD ""
  let content := source.content.getD ""
  let snippet := content.take 50
  { title := title, snippet := snippet }

/-- The result-building loop of `search_documents` over a response. -/
def projectHits (resp : SearchResponse) : List ResultRecord :=
  (responseHits resp).map projectHit

/-- Python truthiness of the optional `content_type` argument: `None` and
the empty string are falsy. -/
def pyTruthy : Option String → Bool
  | none => false
  | some s => !(s == "")

/-- The body construction of `search_documents`: `must_clauses` holds one
`multi_match` over `["title^2", "content"]` with type `best_fields`;
a truthy `content_type` outside `ALLOWED_CONTENT_TYPES` short-circuits
(`return []`, modelled as `none`); a truthy allowed `content_type` adds one
`term` filter clause. -/
def searchQueryBody (query : String) (content_type : Option String) : Option QueryBody :=
  let must_clauses : List MultiMatch :=
    [{ query := query, fields := ["title^2", "content"], type := "best_fields" }]
  if pyTruthy content_type then
    if ALLOWED_CONTENT_TYPES.contains (content_type.getD "") then
      some { must := must_clauses
             filter := [{ field := "content_type", value := content_type.getD "" }]
             source_fields := ["title", "content"]
             size := 50 }
    else
      none
  else
    some { must := must_clauses
           filter := []
           source_fields := ["title", "content"]
           size := 50 }

/-- `search_documents(index_name, query, content_type)`: build the body
(or short-circuit to `[]`), execute it through the store oracle `exec`,
and project every hit to `{title, snippet}`. -/
def search_documents (exec : String → QueryBody → SearchResponse)
    (index_name : String) (query : String) (content_type : Option String) :
    List ResultRecord :=
  match searchQueryBody query content_type with
  | none => []
  | some body => projectHits (exec index_name body)

/-- `get_index_name()`: `os.getenv("INDEX_NAME", "articles_index")`. -/
def get_index_name (env_index_name : Option String) : String :=
  env_index_name.getD "articles_index"

/-- A FastAPI `HTTPException(status_code, detail)`. -/
structure HTTPException where
  status_code : Nat
  detail : String
deriving DecidableEq, Repr

/-- The single-quote character, code point 39. -/
def singleQuote : Char := Char.ofNat 39

/-- Python `repr` of a plain string: the string between single quotes. -/
def pyStrRepr (s : String) : String :=
  String.singleton singleQuote ++ s ++ String.singleton singleQuote

/-- Python `repr` of a list of strings, as rendered inside the f-string of
the facade error message. -/
def pyListRepr (xs : List String) : String :=
  "[" ++ String.intercalate ", " (xs.map pyStrRepr) ++ "]"

/-- Facade `GET /init` (`init_index` in `main.py`): ensure the configured
index and report `{"status": "ok", "index": index_name}`. -/
def init_index (env_index_name : Option String) (s : Store) :
    Store × List (String × String) :=
  let index_name := get_index_name env_index_name
  let s1 := ensure_index index_name s
  (s1, [("status", "ok"), ("index", index_name)])

/-- Facade `POST /seed` (`seed` in `main.py`): ensure the configured index,
run `seed_documents`, and report `{"indexed": count}`. -/
def seed (env_index_name : Option String) (s : Store) :
    Store × List (String × Nat) :=
  let index_name := get_index_name env_index_name
  let s1 := ensure_index index_name s
  let r := seed_documents index_name s1
  (r.1, [("indexed", r.2)])

/-- Facade `GET /search` (`search` in `main.py`): a truthy `content_type`
outside `ALLOWED_CONTENT_TYPES` raises `HTTPException(400, ...)`; otherwise
ensure the configured index and delegate to `search_documents`. -/
def search (exec : String → QueryBody → SearchResponse)
    (env_index_name : Option String) (q : String) (content_type : Option String)
    (s : Store) : Except HTTPException (Store × List ResultRecord) :=
  if pyTruthy content_type && !(ALLOWED_CONTENT_TYPES.contains (content_type.getD "")) then
    Except.error
      { status_code := 400
        detail := "content_type must be one of " ++ pyListRepr ALLOWED_CONTENT_TYPES }
  else
    let index_name := get_index_name env_index_name
    let s1 := ensure_index index_name s
    Except.ok (s1, search_documents exec index_name q content_type)

/-- A store oracle that returns a response with no hits structure. -/
def exec0 : String → QueryBody → SearchResponse := fun _ _ => { hits := none }

/-- The empty store. -/
def store0 : Store := { indices := [] }

/-- The store holding just the freshly created default index. -/
def store1 : Store := ensure_index "articles_index" store0

/-- A candidate document with an allowed category. -/
def docA : Doc := { title := "a", content := "a body", content_type := "article" }

/-- A candidate document with a category outside the closed set. -/
def docBad : Doc := { title := "b", content := "b body", content_type := "video" }

/-- A valid candidate document whose write succeeds. -/
def docOk : Doc := { title := "ok", content := "ok body", content_type := "article" }

/-- A valid candidate document whose write is made to fail. -/
def docBoom : Doc := { title := "boom", content := "boom body", content_type := "blog" }

/-! ### Helper lemmas about the store model -/

theorem indexExists_ensure_index (index_name : String) (s : Store) :
    indexExists (ensure_index index_name s) index_name = true := by
  unfold ensure_index
  split
  · assumption
  · simp [indexExists]

theorem ensure_index_of_exists {index_name : String} {s : Store}
    (h : indexExists s index_name = true) : ensure_index index_name s = s := by
  unfold ensure_index
  rw [if_pos h]

theorem any_key_writeDoc (index_name n : String) (doc : Doc)
    (l : List (String × IndexData)) :
    (l.map fun p =>
        if p.1 == index_name then (p.1, { p.2 with docs := p.2.docs ++ [doc] }) else p).any
        (fun p => p.1 == n)
      = l.any fun p => p.1 == n := by
  induction l with
  | nil => rfl
  | cons p rest ih =>
    simp only [List.map_cons, List.any_cons, ih]
    congr 1
    split <;> rfl

theorem indexExists_writeDoc (index_name n : String) (doc : Doc) (s : Store) :
    indexExists (writeDoc index_name doc s) n = indexExists s n := by
  obtain ⟨l⟩ := s
  exact any_key_writeDoc index_name n doc l

theorem lookupDocs_write (index_name : String) (doc : Doc)
    (l : List (String × IndexData))
    (h : l.any (fun p => p.1 == index_name) = true) :
    lookupDocs index_name
        (l.map fun p =>
          if p.1 == index_name then (p.1, { p.2 with docs := p.2.docs ++ [doc] }) else p)
      = lookupDocs index_name l ++ [doc] := by
  induction l with
  | nil => simp at h
  | cons p rest ih =>
    by_cases hp : p.1 = index_name
    · simp [lookupDocs, hp]
    · have h2 : rest.any (fun q => q.1 == index_name) = true := by
        simpa [List.any_cons, hp] using h
      simpa [lookupDocs, hp] using ih h2

theorem docsOf_writeDoc (index_name : String) (doc : Doc) (s : Store)
    (h : indexExists s index_name = true) :
    docsOf (writeDoc index_name doc s) index_name = docsOf s index_name ++ [doc] := by
  obtain ⟨l⟩ := s
  exact lookupDocs_write index_name doc l h

theorem seedLoop_count (index_name : String) (docs : List Doc) (s : Store) :
    (seedLoop index_name docs s).2 =
      (docs.filter fun d => ALLOWED_CONTENT_TYPES.contains d.content_type).length := by
  induction docs generalizing s with
  | nil => rfl
  | cons d rest ih =>
    by_cases hd : d.content_type ∈ ALLOWED_CONTENT_TYPES
    · simp [seedLoop, hd, List.filter_cons, ih]
    · simp [seedLoop, hd, List.filter_cons, ih]

theorem seedLoop_store (index_name : String) (docs : List Doc) (s : Store) :
    (seedLoop index_name docs s).1 =
      (docs.filter fun d => ALLOWED_CONTENT_TYPES.contains d.content_type).foldl
        (fun st d => writeDoc index_name d st) s := by
  induction docs generalizing s with
  | nil => rfl
  | cons d rest ih =>
    by_cases hd : d.content_type ∈ ALLOWED_CONTENT_TYPES
    · simp [seedLoop, hd, List.filter_cons, ih]
    · simp [seedLoop, hd, List.filter_cons, ih]

theorem indexExists_seedLoop (index_name n : String) (docs : List Doc) (s : Store) :
    indexExists (seedLoop index_name docs s).1 n = indexExists s n := by
  induction docs generalizing s with
  | nil => rfl
  | cons d rest ih =>
    by_cases hd : d.content_type ∈ ALLOWED_CONTENT_TYPES
    · simp [seedLoop, hd, ih, indexExists_writeDoc]
    · simp [seedLoop, hd, ih]

theorem docsOf_seedLoop (index_name : String) (docs : List Doc) (s : Store)
    (h : indexExists s index_name = true) :
    docsOf (seedLoop index_name docs s).1 index_name =
      docsOf s index_name ++
        docs.filter fun d => ALLOWED_CONTENT_TYPES.contains d.content_type := by
  induction docs generalizing s with
  | nil => simp [seedLoop]
  | cons d rest ih =>
    by_cases hd : d.content_type ∈ ALLOWED_CONTENT_TYPES
    · have hw : indexExists (writeDoc index_name d s) index_name = true := by
        rw [indexExists_writeDoc]; exact h
      simp [seedLoop, hd, List.filter_cons, ih (writeDoc index_name d s) hw,
        docsOf_writeDoc index_name d s h]
    · simp [seedLoop, hd, List.filter_cons, ih s h]

theorem seedLoopF_abort (failsOn : Doc → Bool) (index_name : String) (d : Doc)
    (rest : List Doc)
    (hvalid : d.content_type ∈ ALLOWED_CONTENT_TYPES)
    (hfail : failsOn d = true) :
    ∀ (pre : List Doc) (s : Store), (∀ p ∈ pre, failsOn p = false) →
      seedLoopF failsOn index_name (pre ++ d :: rest) s
        = ((seedLoop index_name pre s).1, Except.error SeedError.writeFailure)
  | [], s, _ => by simp [seedLoopF, seedLoop, hvalid, hfail]
  | p :: pre, s, hpre => by
    have hp : failsOn p = false := hpre p (by simp)
    have hpre2 : ∀ q ∈ pre, failsOn q = false := fun q hq => hpre q (by simp [hq])
    have ih := seedLoopF_abort failsOn index_name d rest hvalid hfail pre
      (writeDoc index_name p s) hpre2
    have ih2 := seedLoopF_abort failsOn index_name d rest hvalid hfail pre s hpre2
    by_cases hd : p.content_type ∈ ALLOWED_CONTENT_TYPES
    · simp [seedLoopF, seedLoop, hd, hp, ih]
    · simpa [seedLoopF, seedLoop, hd] using ih2

/-! ### Claim theorems -/

/-- Claim C3: the ingestion loop of `seed_documents` never writes a document
whose `content_type` is outside the closed set, never errors on one, and
never counts one: the count is exactly the number of allowed documents, the
final store is the fold of the writes of exactly the allowed documents, and
the documents stored under the index are the old ones followed by exactly
the allowed candidates. -/
theorem seed_documents_filtering (index_name : String) (docs : List Doc) (s : Store) :
    (seedLoop index_name docs s).2 =
      (docs.filter fun d => ALLOWED_CONTENT_TYPES.contains d.content_type).length ∧
    (seedLoop index_name docs s).1 =
      (docs.filter fun d => ALLOWED_CONTENT_TYPES.contains d.content_type).foldl
        (fun st d => writeDoc index_name d st) s ∧
    (indexExists s index_name = true →
      docsOf (seedLoop index_name docs s).1 index_name =
        docsOf s index_name ++
          docs.filter fun d => ALLOWED_CONTENT_TYPES.contains d.content_type) ∧
    seed_documents index_name s = seedLoop index_name documents s :=
  ⟨seedLoop_count index_name docs s, seedLoop_store index_name docs s,
    docsOf_seedLoop index_name docs s, rfl⟩

/-- Witness for C3 at a concrete batch holding one allowed and one
disallowed document over the freshly created default index. -/
theorem seed_documents_filtering_witness :
    docsOf (seedLoop "articles_index" [docA, docBad] store1).1 "articles_index" =
      docsOf store1 "articles_index" ++
        [docA, docBad].filter fun d => ALLOWED_CONTENT_TYPES.contains d.content_type :=
  (seed_documents_filtering "articles_index" [docA, docBad] store1).2.2.1 (by decide)

/-- Claim C5: `ensure_index` is idempotent. The second call on an existing
index is the identity on the store, so the schema and the stored documents
are unchanged and no error is raised. -/
theorem ensure_index_idempotent (index_name : String) (s : Store) :
    ensure_index index_name (ensure_index index_name s) = ensure_index index_name s ∧
    (indexExists s index_name = true → ensure_index index_name s = s) :=
  ⟨ensure_index_of_exists (indexExists_ensure_index index_name s),
    fun h => ensure_index_of_exists h⟩

/-- Witness for C5 at the store that already holds the default index. -/
theorem ensure_index_idempotent_witness :
    ensure_index "articles_index" store1 = store1 :=
  (ensure_index_idempotent "articles_index" store1).2 (by decide)

/-- Claim C7: when the store write fails on one document of the batch, the
ingestion loop aborts there and propagates the ingestion error, while every
document admitted before the failure stays admitted: the final store is the
one obtained by the non-failing loop on the preceding candidates, which is
the fold of the writes of its allowed documents with no rollback. -/
theorem seed_documents_write_failure (failsOn : Doc → Bool) (index_name : String)
    (pre : List Doc) (d : Doc) (rest : List Doc) (s : Store)
    (hpre : ∀ p ∈ pre, failsOn p = false)
    (hvalid : d.content_type ∈ ALLOWED_CONTENT_TYPES)
    (hfail : failsOn d = true) :
    seedLoopF failsOn index_name (pre ++ d :: rest) s
      = ((seedLoop index_name pre s).1, Except.error SeedError.writeFailure) ∧
    (seedLoop index_name pre s).1 =
      (pre.filter fun q => ALLOWED_CONTENT_TYPES.contains q.content_type).foldl
        (fun st q => writeDoc index_name q st) s :=
  ⟨seedLoopF_abort failsOn index_name d rest hvalid hfail pre s hpre,
    seedLoop_store index_name pre s⟩

/-- Claim C1 (amended): for every non-empty category filter string outside
the closed set, the facade search raises HTTP 400 with the message
enumerating the allowed set, while `search_documents` called directly with
the same filter returns the empty list and raises no error. -/
theorem search_unknown_filter_asymmetry (exec : String → QueryBody → SearchResponse)
    (env_index_name : Option String) (index_name q ct : String) (s : Store)
    (h1 : ct ≠ "") (h2 : ct ∉ ALLOWED_CONTENT_TYPES) :
    search exec env_index_name q (some ct) s =
      Except.error
        { status_code := 400
          detail := "content_type must be one of " ++ pyListRepr ALLOWED_CONTENT_TYPES } ∧
    search_documents exec index_name q (some ct) = [] := by
  have ht : pyTruthy (some ct) = true := by simp [pyTruthy, h1]
  have hc : ALLOWED_CONTENT_TYPES.contains ct = false := by simp [h2]
  constructor
  · simp [search, ht, hc, h2]
  · simp [search_documents, searchQueryBody, ht, hc, h2]

/-- Witness for C1 at the concrete filter string "bogus". -/
theorem search_unknown_filter_asymmetry_witness :
    search exec0 none "demo" (some "bogus") store0 =
      Except.error
        { status_code := 400
          detail := "content_type must be one of " ++ pyListRepr ALLOWED_CONTENT_TYPES } ∧
    search_documents exec0 "articles_index" "demo" (some "bogus") = [] :=
  search_unknown_filter_asymmetry exec0 none "articles_index" "demo" "bogus" store0
    (by decide) (by decide)

/-- Counterexample for C1 as frozen: the empty string is a category filter
string outside the closed set, yet the facade raises no client error on it
and returns a success value. -/
theorem search_unknown_filter_counterexample :
    "" ∉ ALLOWED_CONTENT_TYPES ∧
    search exec0 none "demo" (some "") store0 =
      Except.ok (ensure_index "articles_index" store0,
        search_documents exec0 "articles_index" "demo" (some "")) :=
  ⟨by decide, rfl⟩

/-- Claim C2: every matched document is projected to `{title, snippet}`
with `snippet` exactly the first 50 characters of `content` under the
natural codepoint slicing; content shorter than 50 characters yields the
whole string and raises no error. -/
theorem search_documents_snippet :
    (∀ (exec : String → QueryBody → SearchResponse) (index_name q : String),
      search_documents exec index_name q none =
        (responseHits (exec index_name
            { must := [{ query := q, fields := ["title^2", "content"], type := "best_fields" }]
              filter := []
              source_fields := ["title", "content"]
              size := 50 })).map projectHit) ∧
    (∀ t c : String,
      projectHit { source := some { title := some t, content := some c } }
        = { title := t, snippet := c.take 50 }) ∧
    (∀ c : String, c.length < 50 → c.take 50 = c) := by
  refine ⟨fun exec i q => rfl, fun t c => rfl, fun c h => ?_⟩
  obtain ⟨data⟩ := c
  rw [String.take_eq]
  exact congrArg String.mk (List.take_of_length_le (Nat.le_of_lt h))

/-- Witness for C2 at a concrete content string shorter than 50
characters. -/
theorem search_documents_snippet_witness :
    ("ok body" : String).take 50 = "ok body" :=
  search_documents_snippet.2.2 "ok body" (by decide)

/-- Claim C4: whenever `search_documents` builds a query body, its must
part is one multi_match clause over exactly the fields title^2 and
content with combination type best_fields. -/
theorem search_documents_query_weighting (q : String) (ct : Option String)
    (body : QueryBody) (h : searchQueryBody q ct = some body) :
    body.must = [{ query := q, fields := ["title^2", "content"], type := "best_fields" }] := by
  simp only [searchQueryBody] at h
  split at h
  · split at h
    · cases h
      rfl
    · exact Option.noConfusion h
  · cases h
    rfl

/-- Witness for C4 at a concrete query with no category filter. -/
theorem search_documents_query_weighting_witness :
    ({ must := [{ query := "demo", fields := ["title^2", "content"], type := "best_fields" }]
       filter := []
       source_fields := ["title", "content"]
       size := 50 } : QueryBody).must
      = [{ query := "demo", fields := ["title^2", "content"], type := "best_fields" }] :=
  search_documents_query_weighting "demo" none _ rfl

/-- Counterexample for C6 as frozen: the key of the facade seed response is
"indexed", not "admitted". -/
theorem seed_response_key_counterexample :
    ((seed none store0).2.map Prod.fst) = ["indexed"] ∧
    "admitted" ∉ (seed none store0).2.map Prod.fst := by
  have h : ((seed none store0).2.map Prod.fst) = ["indexed"] := rfl
  exact ⟨h, by rw [h]; decide⟩

/-- Claim C6 (amended): the facade seed operation returns on success a
single-key object `{indexed: count}` whose value is the count of documents
successfully admitted. -/
theorem seed_response_shape (env_index_name : Option String) (s : Store) :
    (seed env_index_name s).2 =
      [("indexed",
        (seed_documents (get_index_name env_index_name)
          (ensure_index (get_index_name env_index_name) s)).2)] := rfl

/-- Claim C8: an empty-string category filter is treated as absent at both
boundaries: the facade returns success though the empty string is outside
the closed set, and the query service builds the same body as with no
filter, with no term filter clause and no empty-list short-circuit. -/
theorem empty_filter_treated_as_absent :
    "" ∉ ALLOWED_CONTENT_TYPES ∧
    (∀ (exec : String → QueryBody → SearchResponse) (env_index_name : Option String)
        (q : String) (s : Store),
      search exec env_index_name q (some "") s =
        Except.ok (ensure_index (get_index_name env_index_name) s,
          search_documents exec (get_index_name env_index_name) q (some ""))) ∧
    (∀ q : String, searchQueryBody q (some "") = searchQueryBody q none) ∧
    (∀ q : String, ∃ body : QueryBody,
      searchQueryBody q (some "") = some body ∧ body.filter = []) :=
  ⟨by decide, fun exec env q s => rfl, fun q => rfl,
    fun q =>
      ⟨{ must := [{ query := q, fields := ["title^2", "content"], type := "best_fields" }]
         filter := []
         source_fields := ["title", "content"]
         size := 50 }, rfl, rfl⟩⟩

/-- Claim C9: `search_documents` is total over responses with missing
pieces: a response without the hits structure yields the empty list, and a
hit whose source misses the title or content field projects to the empty
string in place of the missing field rather than erroring. -/
theorem search_documents_response_total :
    (∀ q : String,
      search_documents (fun _ _ => { hits := none }) "articles_index" q none = []) ∧
    responseHits { hits := none } = [] ∧
    responseHits { hits := some { hits := none } } = [] ∧
    projectHit { source := none } = { title := "", snippet := "" } ∧
    projectHit { source := some { title := none, content := none } }
      = { title := "", snippet := "" } ∧
    (∀ c : String,
      projectHit { source := some { title := none, content := some c } }
        = { title := "", snippet := c.take 50 }) ∧
    (∀ t : String,
      projectHit { source := some { title := some t, content := none } }
        = { title := t, snippet := "" }) := by
  have hTake : ("" : String).take 50 = "" := by
    rw [String.take_eq]
    rfl
  exact ⟨fun q => rfl, rfl, rfl, by simp [projectHit, hTake], by simp [projectHit, hTake],
    fun c => rfl, fun t => by simp [projectHit, hTake]⟩

/-- Claim C10: every facade operation ensures the configured index before
delegating: after init, after seed, and after a successful search the
index exists; and search is not read-only, since on a store without the
index it returns a changed store holding the newly created index. -/
theorem facade_ensures_index :
    (∀ (env_index_name : Option String) (s : Store),
      indexExists (init_index env_index_name s).1 (get_index_name env_index_name) = true) ∧
    (∀ (env_index_name : Option String) (s : Store),
      indexExists (seed env_index_name s).1 (get_index_name env_index_name) = true) ∧
    (∀ (exec : String → QueryBody → SearchResponse) (env_index_name : Option String)
        (q : String) (ct : Option String) (s : Store) (out : Store × List ResultRecord),
      search exec env_index_name q ct s = Except.ok out →
      indexExists out.1 (get_index_name env_index_name) = true) ∧
    (indexExists store0 "articles_index" = false ∧
      search exec0 none "demo" none store0 =
        Except.ok (store1, search_documents exec0 "articles_index" "demo" none) ∧
      store1 ≠ store0) := by
  refine ⟨fun env s => indexExists_ensure_index (get_index_name env) s,
    fun env s => ?_, fun exec env q ct s out h => ?_, rfl, rfl, by decide⟩
  · show indexExists
      (seedLoop (get_index_name env) documents (ensure_index (get_index_name env) s)).1
      (get_index_name env) = true
    rw [indexExists_seedLoop]
    exact indexExists_ensure_index (get_index_name env) s
  · simp only [search] at h
    split at h
    · exact Except.noConfusion h
    · cases h
      exact indexExists_ensure_index (get_index_name env) s

/-- Witness for C10: the successful-search clause at a concrete store
without the index. -/
theorem facade_ensures_index_witness :
    indexExists store1 "articles_index" = true :=
  facade_ensures_index.2.2.1 exec0 none "demo" none store0
    (store1, search_documents exec0 "articles_index" "demo" none) rfl

/-- Witness for C7 at a concrete batch whose second document fails to
write. -/
theorem seed_documents_write_failure_witness :
    seedLoopF (fun q => q.title == "boom") "articles_index" ([docOk] ++ docBoom :: []) store1
      = ((seedLoop "articles_index" [docOk] store1).1,
          Except.error SeedError.writeFailure) ∧
    (seedLoop "articles_index" [docOk] store1).1 =
      ([docOk].filter fun q => ALLOWED_CONTENT_TYPES.contains q.content_type).foldl
        (fun st q => writeDoc "articles_index" q st) store1 :=
  seed_documents_write_failure (fun q => q.title == "boom") "articles_index" [docOk]
    docBoom [] store1 (by decide) (by decide) (by decide)

end App
